import Mathlib

/-!
# Verification of the cloudflare-ddns reconciliation script

A shallow embedding of `src/cloudflare-ddns.js`, a Node.js dynamic-DNS
updater. Pure fragments of the script become Lean functions; the event-loop
and network effects are made explicit: every external call's outcome is
supplied by an environment value, and the observable behaviour (log lines,
API calls issued, process exits) is returned as a trace of actions.

JavaScript truthiness on the relevant value shapes (absent/`undefined`
versus present, empty versus non-empty string, zero versus non-zero number)
is modelled explicitly with `Option` and the `strTruthy`/`intTruthy`
helpers.
-/

namespace CloudflareDdns

/-- JS truthiness of a possibly-absent string: `undefined` and `""` are falsy. -/
def strTruthy : Option String → Bool
  | none => false
  | some s => !(s == "")

/-- JS truthiness of a possibly-absent number: `undefined` and `0` are falsy. -/
def intTruthy : Option Int → Bool
  | none => false
  | some n => !(n == 0)

/-- Embeds `s.trim() === ''` from `validateConfig`: true iff every character
of `s` is whitespace (in particular for `s = ""`). -/
def trimEmpty (s : String) : Bool :=
  s.toList.all fun c => c == ' ' || c == '\t' || c == '\n' || c == '\r'

/-- One entry of the `domains` array of `config.json`, fields optional as in JSON. -/
structure RawDomain where
  name : Option String
  zoneId : Option String
  apiToken : Option String
  ttl : Option Int
  proxied : Option Bool
deriving DecidableEq

/-- The `defaults` object of `config.json`. -/
structure RawDefaults where
  apiToken : Option String
  ttl : Option Int
  proxied : Option Bool
deriving DecidableEq

/-- The parsed `config.json` document (telegram section flattened). -/
structure RawConfig where
  telegramBotToken : Option String
  telegramChatId : Option String
  defaults : Option RawDefaults
  domains : Option (List RawDomain)
deriving DecidableEq

/-- `const defaults = config.defaults || {}` (an absent object behaves as `{}`). -/
def configDefaults (cfg : RawConfig) : RawDefaults :=
  cfg.defaults.getD { apiToken := none, ttl := none, proxied := none }

/-- `const defaultApiToken = defaults.apiToken`. -/
def configDefaultApiToken (cfg : RawConfig) : Option String :=
  (configDefaults cfg).apiToken

/-- `const defaultTtl = defaults.ttl || 60` (JS `||`: a falsy `ttl`, absent or 0, yields 60). -/
def configDefaultTtl (cfg : RawConfig) : Int :=
  if intTruthy (configDefaults cfg).ttl then (configDefaults cfg).ttl.getD 60 else 60

/-- `const defaultProxied = defaults.proxied || false`. -/
def configDefaultProxied (cfg : RawConfig) : Bool :=
  (configDefaults cfg).proxied.getD false

/-- One element of the global `DOMAINS` array after `loadConfig`. -/
structure DomainTarget where
  name : Option String
  zoneId : Option String
  apiToken : Option String
  ttl : Int
  proxied : Bool
deriving DecidableEq

/-- The `DOMAINS`-building part of `loadConfig`: keep only entries whose
`name` and `zoneId` are truthy, then resolve per-entry overrides against the
defaults (`apiToken: d.apiToken || defaultApiToken`,
`ttl: d.ttl !== undefined ? d.ttl : defaultTtl`,
`proxied: d.proxied !== undefined ? d.proxied : defaultProxied`). -/
def loadDomains (cfg : RawConfig) : List DomainTarget :=
  match cfg.domains with
  | none => []
  | some ds =>
      (ds.filter fun d => strTruthy d.name && strTruthy d.zoneId).map fun d =>
        { name := d.name
          zoneId := d.zoneId
          apiToken := if strTruthy d.apiToken then d.apiToken else configDefaultApiToken cfg
          ttl := d.ttl.getD (configDefaultTtl cfg)
          proxied := d.proxied.getD (configDefaultProxied cfg) }

/-- The credential check of `validateConfig`:
`!domain.apiToken || domain.apiToken.trim() === ''`. -/
def tokenBad : Option String → Bool
  | none => true
  | some s => trimEmpty s

/-- The per-domain part of the `errors` list built by `validateConfig`
(`DOMAINS.forEach((domain, index) => ...)`), with the running index. -/
def domainErrors : Nat → List DomainTarget → List String
  | _, [] => []
  | i, d :: rest =>
      ((if strTruthy d.name then [] else ["Domain " ++ toString (i + 1) ++ ": missing name"]) ++
       (if strTruthy d.zoneId then [] else ["Domain " ++ toString (i + 1) ++ ": missing zoneId"]) ++
       (if tokenBad d.apiToken then ["Domain " ++ toString (i + 1) ++ ": missing apiToken"] else [])) ++
      domainErrors (i + 1) rest

/-- The full `errors` list of `validateConfig`: the zero-domain check followed
by the per-domain checks. -/
def validateErrors (ds : List DomainTarget) : List String :=
  (if ds.isEmpty then ["No domains found"] else []) ++ domainErrors 0 ds

/-- `validateConfig` calls `process.exit(1)` iff `errors.length > 0`; this is
that exit condition for a given parsed configuration. -/
def validateConfigFatal (cfg : RawConfig) : Bool :=
  !(validateErrors (loadDomains cfg)).isEmpty

/-! ## The retry helper `retryCloudflareAPI` -/

/-- Outcome of one invocation of the wrapped async function `fn`:
it resolves to a value or rejects with an error. -/
inductive CallResult (α : Type) where
  | success (v : α)
  | failure (e : String)
deriving DecidableEq

/-- Observable outcome of a run of `retryCloudflareAPI`: the value returned
or error re-thrown (`none` only when the loop falls through, i.e. `retries = 0`),
the number of attempts performed, and the successive backoff sleeps in ms. -/
structure RetryOutcome (α : Type) where
  result : Option (Except String α)
  attempts : Nat
  delays : List Nat

/-- The `for (let attempt = 1; attempt <= retries; attempt++)` loop of
`retryCloudflareAPI`, entered at loop counter `attempt`; `fn a` is what the
wrapped call does on its `a`-th invocation. A non-last failure sleeps
`Math.min(initialDelayMs * Math.pow(2, attempt - 1), 10000)` and retries; the
last failure re-throws. -/
def retryFrom {α : Type} (fn : Nat → CallResult α) (retries initialDelayMs attempt : Nat) :
    RetryOutcome α :=
  if retries < attempt then { result := none, attempts := 0, delays := [] }
  else
    match fn attempt with
    | CallResult.success v => { result := some (Except.ok v), attempts := 1, delays := [] }
    | CallResult.failure e =>
        if attempt = retries then { result := some (Except.error e), attempts := 1, delays := [] }
        else
          let d := min (initialDelayMs * 2 ^ (attempt - 1)) 10000
          let rest := retryFrom fn retries initialDelayMs (attempt + 1)
          { result := rest.result, attempts := rest.attempts + 1, delays := d :: rest.delays }
termination_by retries + 1 - attempt
decreasing_by omega

/-- `retryCloudflareAPI(fn, context, { retries, initialDelayMs })`: run the
attempt loop from attempt 1. -/
def retryCloudflareAPI {α : Type} (fn : Nat → CallResult α) (retries initialDelayMs : Nat) :
    RetryOutcome α :=
  retryFrom fn retries initialDelayMs 1

/-! ## `getARecord` -/

/-- The useful part of a DNS record returned by the provider:
`{ ip: data.result[0].content, recordId: data.result[0].id }`. -/
structure Record where
  ip : String
  recordId : String
deriving DecidableEq

/-- One record object of the provider's list response. -/
structure RawRecord where
  content : String
  id : String
deriving DecidableEq

/-- The provider's response to the list-records GET, as consumed by the code:
HTTP status and `ok` flag, body `success` flag and `result` array. -/
structure ListResponse where
  status : Nat
  ok : Bool
  success : Bool
  result : List RawRecord
deriving DecidableEq

/-- The async closure passed to `retryCloudflareAPI` by `getARecord`, applied
to the response the provider gives that attempt: non-ok HTTP throws (a
retryable failure); otherwise `data.success && data.result.length > 0` yields
the first record, and anything else logs "not found" and resolves `null`. -/
def fetchAttemptBody (resp : ListResponse) : CallResult (Option Record) :=
  if resp.ok = false then CallResult.failure ("HTTP " ++ toString resp.status)
  else
    match resp.success, resp.result with
    | true, r :: _ => CallResult.success (some { ip := r.content, recordId := r.id })
    | _, _ => CallResult.success none

/-- `getARecord`: wrap the attempt body in `retryCloudflareAPI` (ceiling 3,
base delay 1000 ms) and catch: an error escaping the retry helper is logged
and turned into `null`. `attemptFn a` is the attempt body's outcome on the
`a`-th attempt. -/
def getARecord (attemptFn : Nat → CallResult (Option Record)) : Option Record :=
  match (retryCloudflareAPI attemptFn 3 1000).result with
  | some (Except.ok r) => r
  | some (Except.error _) => none
  | none => none

/-! ## `sendTelegramMessage` -/

/-- Outcome of one POST attempt to the Telegram API (resolve ok, or any of
the throwing paths: non-ok HTTP, `ok=false` body, timeout/abort). -/
inductive TgAttempt where
  | ok
  | fail (e : String)
deriving DecidableEq

/-- Observable events of `sendTelegramMessage`. -/
inductive TgEvent where
  | warnMissingCreds
  | attemptStart (a : Nat)
  | sentOk
  | retryWait (d : Nat)
  | failedFinal
deriving DecidableEq

/-- The attempt loop of `sendTelegramMessage`, from loop counter `a`: a
non-last failure sleeps `Math.min(initialDelayMs * 2^(a-1), 15000)` plus a
random jitter `Math.floor(Math.random()*300)` (supplied by `jitter a`, taken
mod 300) and retries; the last failure logs and resolves `false`. -/
def tgLoop (attempt : Nat → TgAttempt) (jitter : Nat → Nat)
    (retries initialDelayMs a : Nat) : Bool × List TgEvent :=
  if retries < a then (false, [])
  else
    match attempt a with
    | TgAttempt.ok => (true, [TgEvent.attemptStart a, TgEvent.sentOk])
    | TgAttempt.fail _ =>
        if a = retries then (false, [TgEvent.attemptStart a, TgEvent.failedFinal])
        else
          let d := min (initialDelayMs * 2 ^ (a - 1)) 15000 + jitter a % 300
          let rest := tgLoop attempt jitter retries initialDelayMs (a + 1)
          (rest.1, TgEvent.attemptStart a :: TgEvent.retryWait d :: rest.2)
termination_by retries + 1 - a
decreasing_by omega

/-- `sendTelegramMessage(message)`: if `!TELEGRAM_BOT_TOKEN || !TELEGRAM_CHAT_ID`,
warn and resolve `false` without any delivery attempt; otherwise run the
5-attempt loop (base delay 500 ms). -/
def sendTelegramMessage (botToken chatId : Option String)
    (attempt : Nat → TgAttempt) (jitter : Nat → Nat) : Bool × List TgEvent :=
  if strTruthy botToken = false || strTruthy chatId = false then
    (false, [TgEvent.warnMissingCreds])
  else tgLoop attempt jitter 5 500 1

/-! ## The reconciliation cycle `checkAndUpdate` -/

/-- Environment of one cycle: the outcome of each awaited external call.
`publicIp` is what `getPublicIp()` resolves (it catches internally, so it
always resolves, possibly `null`). `fetch i` is the settlement of the awaited
`getARecord` promise for the `i`-th domain of `DOMAINS` (an `Except.error`
models the promise rejecting, which the loop body would propagate).
`update i` is the outcome `updateARecord` observes for the `i`-th domain:
`none` when the retry envelope returned success, `some e` when the error `e`
was caught after exhausting retries. -/
structure CycleEnv where
  publicIp : Option String
  fetch : Nat → Except String (Option Record)
  update : Nat → Option String

/-- Observable actions of a `checkAndUpdate` invocation, in order. -/
inductive Action where
  | busyWarn
  | resolveFailed
  | skippedMatch (i : Nat) (ip : String)
  | updateIssued (i : Nat) (newIp oldIp : String)
  | updateDone (i : Nat)
  | notified (i : Nat)
  | updateFailed (i : Nat) (e : String)
deriving DecidableEq

/-- `updateARecord(domainConfig, recordId, newIp, oldIp)` for the `i`-th
domain: the PATCH is issued through the retry envelope; on success it logs
and awaits the Telegram notification, on a caught error it logs. -/
def updateARecordModel (env : CycleEnv) (i : Nat) (newIp oldIp : String) : List Action :=
  Action.updateIssued i newIp oldIp ::
    match env.update i with
    | none => [Action.updateDone i, Action.notified i]
    | some e => [Action.updateFailed i e]

/-- The `for (const domainConfig of DOMAINS)` loop of `checkAndUpdate`,
processing the suffix `ds` of `DOMAINS` whose first element has index `i`,
with `ip` the public IP resolved once for this cycle. A `null` record means
`continue`; a record equal (exact string comparison) to `ip` is logged as a
match; otherwise `updateARecord` is awaited. An `Except.error` from the
awaited fetch aborts the loop and propagates. -/
def cycleLoop (env : CycleEnv) (ip : String) : Nat → List DomainTarget →
    Except String Unit × List Action
  | _, [] => (Except.ok (), [])
  | i, _d :: rest =>
      match env.fetch i with
      | Except.error e => (Except.error e, [])
      | Except.ok none => cycleLoop env ip (i + 1) rest
      | Except.ok (some rec) =>
          if rec.ip = ip then
            let t := cycleLoop env ip (i + 1) rest
            (t.1, Action.skippedMatch i ip :: t.2)
          else
            let u := updateARecordModel env i ip rec.ip
            let t := cycleLoop env ip (i + 1) rest
            (t.1, u ++ t.2)

/-- `checkAndUpdate()`: if `isRunning` the tick is dropped with a warning and
nothing else happens. Otherwise `isRunning` is set, and the body
(resolve-once, then the domain loop) runs inside `try ... finally
{ isRunning = false }`: the returned flag is the value of `isRunning` after
the invocation settles, whatever the body did — including the early return
when the IP resolves `null`, and a rejection propagating out of the loop. -/
def checkAndUpdate (isRunning : Bool) (env : CycleEnv) (domains : List DomainTarget) :
    Bool × Except String Unit × List Action :=
  if isRunning then (isRunning, Except.ok (), [Action.busyWarn])
  else
    match env.publicIp with
    | none => (false, Except.ok (), [Action.resolveFailed])
    | some ip =>
        let t := cycleLoop env ip 0 domains
        (false, t.1, t.2)

/-- Does the trace contain an update call issued for domain index `i`? -/
def issuesUpdateFor (i : Nat) (tr : List Action) : Bool :=
  tr.any fun a =>
    match a with
    | Action.updateIssued j _ _ => j == i
    | _ => false

/-- Does the trace contain an "already matches, skipping" log for domain index `i`? -/
def skipsMatchFor (i : Nat) (tr : List Action) : Bool :=
  tr.any fun a =>
    match a with
    | Action.skippedMatch j _ => j == i
    | _ => false

/-! ## Graceful shutdown -/

/-- The mutable process state read by `gracefulShutdown`: the `isShuttingDown`
latch, whether a `setTimeout` timer is pending, and the `isRunning` cycle flag. -/
structure ShutdownState where
  isShuttingDown : Bool
  timerPending : Bool
  isRunning : Bool
deriving DecidableEq

/-- Externally visible effects of the shutdown handler. -/
inductive ShutdownEffect where
  | cancelTimer
  | startPoll
  | exitNow (code : Nat)
deriving DecidableEq

/-- `gracefulShutdown(signal)`: a second signal (latch already set) is a
no-op; otherwise set the latch, clear any pending timer, and either exit 0
immediately (no cycle running) or start the 100 ms completion poll. -/
def gracefulShutdown (s : ShutdownState) : ShutdownState × List ShutdownEffect :=
  if s.isShuttingDown then (s, [])
  else
    let cancel : List ShutdownEffect :=
      if s.timerPending then [ShutdownEffect.cancelTimer] else []
    let s2 : ShutdownState := { s with isShuttingDown := true, timerPending := false }
    if s2.isRunning then (s2, cancel ++ [ShutdownEffect.startPoll])
    else (s2, cancel ++ [ShutdownEffect.exitNow 0])

/-- Embeds the waiting phase started by `gracefulShutdown` when a cycle is
running: a `setInterval` checks `isRunning` every 100 ms and calls
`process.exit(0)` once clear, while a 30000 ms `setTimeout` calls
`process.exit(1)`. `completesAtMs` is the instant (ms after the signal) at
which the running cycle clears `isRunning`; the result is the exit code and
exit instant. The first poll tick at or after completion is
`100 * ceil(completesAtMs / 100)`; if it comes before the 30000 ms deadline
the process exits 0 there, otherwise the timeout fires first and exits 1. -/
def shutdownPollExit (completesAtMs : Nat) : Nat × Nat :=
  let firstPoll := 100 * ((completesAtMs + 99) / 100)
  if firstPoll < 30000 then (0, firstPoll) else (1, 30000)

/-! ## Concrete inputs used by counterexamples and witnesses -/

/-- A configuration holding one fully valid domain entry and one entry with
no `name` (the second entry is what `loadConfig` filters out). -/
def cfgDropsNamelessEntry : RawConfig :=
  { telegramBotToken := none
    telegramChatId := none
    defaults := some { apiToken := some "tok", ttl := none, proxied := none }
    domains := some
      [ { name := some "a.example.com", zoneId := some "zone1",
          apiToken := none, ttl := none, proxied := none },
        { name := none, zoneId := some "zone2",
          apiToken := none, ttl := none, proxied := none } ] }

/-- A configuration whose single domain entry supplies `ttl: 0` while the
defaults supply `ttl: 300`. -/
def cfgTtlZeroEntry : RawConfig :=
  { telegramBotToken := none
    telegramChatId := none
    defaults := some { apiToken := some "tok", ttl := some 300, proxied := none }
    domains := some
      [ { name := some "a.example.com", zoneId := some "zone1",
          apiToken := none, ttl := some 0, proxied := none } ] }

/-- A cycle environment whose resolved IP already matches the single record. -/
def envMatch : CycleEnv :=
  { publicIp := some "1.2.3.4"
    fetch := fun _ => Except.ok (some { ip := "1.2.3.4", recordId := "rid" })
    update := fun _ => none }

/-- A cycle environment where domain 0 yields no record (its fetch exhausted
retries inside `getARecord`) while domain 1 yields a stale record. -/
def envFirstFails : CycleEnv :=
  { publicIp := some "1.2.3.4"
    fetch := fun k =>
      if k = 0 then Except.ok none
      else Except.ok (some { ip := "9.9.9.9", recordId := "r2" })
    update := fun _ => none }

/-- A one-element `DOMAINS` list. -/
def domainsOne : List DomainTarget :=
  [ { name := some "a.example.com", zoneId := some "zone1",
      apiToken := some "tok", ttl := 60, proxied := false } ]

/-- A two-element `DOMAINS` list. -/
def domainsTwo : List DomainTarget :=
  [ { name := some "a.example.com", zoneId := some "zone1",
      apiToken := some "tok", ttl := 60, proxied := false },
    { name := some "b.example.com", zoneId := some "zone2",
      apiToken := some "tok", ttl := 60, proxied := false } ]

/-- The list response used to exercise the `success:false` path. -/
def respSuccessFalse : ListResponse :=
  { status := 200, ok := true, success := false,
    result := [ { content := "1.2.3.4", id := "rid" } ] }

/-! ## Theorems -/

/-- C1: a `checkAndUpdate` invocation that begins while a previous one is in
progress (`isRunning = true`) logs the busy warning and returns: for every
environment and domain list it resolves no IP, fetches no record, issues no
update, and leaves the flag to the in-progress cycle — the tick is dropped,
nothing is queued. -/
theorem checkAndUpdate_busy_tick_dropped (env : CycleEnv) (domains : List DomainTarget) :
    checkAndUpdate true env domains = (true, Except.ok (), [Action.busyWarn]) := rfl

/-- C10: every invocation that passes the cycle-in-progress guard leaves
`isRunning = false` once it settles, on every exit path the environment can
produce (null IP early return, normal loop completion, and a rejection
propagating out of the loop body). -/
theorem checkAndUpdate_clears_isRunning (env : CycleEnv) (domains : List DomainTarget) :
    (checkAndUpdate false env domains).1 = false := by
  unfold checkAndUpdate
  cases env.publicIp <;> simp

/-- C2: with attempt ceiling 3 and base delay 1000 ms, a wrapped call that
fails K < 3 times then succeeds makes the helper return the success value
after exactly K+1 attempts, the sleep before attempt a+1 being
`min(1000 * 2^(a-1), 10000)` ms with no jitter; and a call failing all 3
attempts makes the helper re-throw the last error. -/
theorem retryCloudflareAPI_backoff {α : Type} (fn : Nat → CallResult α) (K : Nat) (v : α)
    (hK : K < 3)
    (hfail : ∀ a, 1 ≤ a → a ≤ K → ∃ e, fn a = CallResult.failure e)
    (hsucc : fn (K + 1) = CallResult.success v) :
    (retryCloudflareAPI fn 3 1000).result = some (Except.ok v) ∧
    (retryCloudflareAPI fn 3 1000).attempts = K + 1 ∧
    (retryCloudflareAPI fn 3 1000).delays
      = (List.range K).map (fun a => min (1000 * 2 ^ a) 10000) ∧
    ∀ (g : Nat → CallResult α) (e : String),
      (∀ a, 1 ≤ a → a ≤ 2 → ∃ e2, g a = CallResult.failure e2) →
      g 3 = CallResult.failure e →
      (retryCloudflareAPI g 3 1000).result = some (Except.error e) ∧
      (retryCloudflareAPI g 3 1000).attempts = 3 := by
  have tail : ∀ (g : Nat → CallResult α) (e : String),
      (∀ a, 1 ≤ a → a ≤ 2 → ∃ e2, g a = CallResult.failure e2) →
      g 3 = CallResult.failure e →
      (retryCloudflareAPI g 3 1000).result = some (Except.error e) ∧
      (retryCloudflareAPI g 3 1000).attempts = 3 := by
    intro g e hg h3
    obtain ⟨e1, h1⟩ := hg 1 (by omega) (by omega)
    obtain ⟨e2, h2⟩ := hg 2 (by omega) (by omega)
    rw [retryCloudflareAPI, retryFrom, h1]
    rw [retryFrom, h2]
    rw [retryFrom, h3]
    norm_num
  interval_cases K
  · rw [Nat.zero_add] at hsucc
    refine ⟨?_, ?_, ?_, tail⟩ <;>
      rw [retryCloudflareAPI, retryFrom, hsucc] <;> norm_num <;> try decide
  · obtain ⟨e1, h1⟩ := hfail 1 (by omega) (by omega)
    refine ⟨?_, ?_, ?_, tail⟩ <;>
      rw [retryCloudflareAPI, retryFrom, h1, retryFrom, hsucc] <;> norm_num <;> try decide
  · obtain ⟨e1, h1⟩ := hfail 1 (by omega) (by omega)
    obtain ⟨e2, h2⟩ := hfail 2 (by omega) (by omega)
    refine ⟨?_, ?_, ?_, tail⟩ <;>
      rw [retryCloudflareAPI, retryFrom, h1, retryFrom, h2, retryFrom, hsucc] <;>
      norm_num <;> try decide

/-- C2 witness: a call failing once then succeeding takes 2 attempts with a
single 1000 ms sleep; an always-failing call re-throws its last error. -/
theorem retryCloudflareAPI_backoff_witness :
    (retryCloudflareAPI
        (fun a => if a = 1 then CallResult.failure "boom" else CallResult.success 7)
        3 1000).attempts = 2 ∧
    (retryCloudflareAPI
        (fun a => if a = 1 then CallResult.failure "boom" else CallResult.success 7)
        3 1000).delays = [1000] ∧
    (retryCloudflareAPI (fun _ => (CallResult.failure "dead" : CallResult Nat)) 3 1000).result
      = some (Except.error "dead") := by
  have h := retryCloudflareAPI_backoff
    (fun a => if a = 1 then CallResult.failure "boom" else CallResult.success 7)
    1 7 (by omega)
    (fun a h1 h2 => ⟨"boom", by interval_cases a; rfl⟩) rfl
  refine ⟨h.2.1, by rw [h.2.2.1]; decide, ?_⟩
  exact (h.2.2.2 (fun _ => CallResult.failure "dead") "dead"
    (fun a _ _ => ⟨"dead", rfl⟩) rfl).1

/-- C9: a provider response with an HTTP-success status but `success:false`
in the body makes the attempt body resolve `null` exactly as in the
empty-record-list case: the outcome equals the no-record outcome, and when it
is the first attempt the retry helper performs exactly one attempt, raises no
error, and `getARecord` returns `null` — indistinguishable from "no record
found". -/
theorem fetch_successFalse_like_noRecord (resp : ListResponse)
    (hok : resp.ok = true) (hs : resp.success = false) :
    fetchAttemptBody resp = CallResult.success none ∧
    fetchAttemptBody resp
      = fetchAttemptBody { status := resp.status, ok := true, success := true, result := [] } ∧
    ∀ fn : Nat → CallResult (Option Record), fn 1 = fetchAttemptBody resp →
      (retryCloudflareAPI fn 3 1000).attempts = 1 ∧
      (retryCloudflareAPI fn 3 1000).result = some (Except.ok none) ∧
      getARecord fn = none := by
  have hbody : fetchAttemptBody resp = CallResult.success none := by
    unfold fetchAttemptBody
    rw [hok, hs]
    cases resp.result <;> simp
  refine ⟨hbody, by rw [hbody]; rfl, ?_⟩
  intro fn hfn
  rw [hbody] at hfn
  rw [getARecord, retryCloudflareAPI, retryFrom, hfn]
  norm_num

/-- C9 witness: the concrete `success:false` response with a non-empty record
list behaves as "no record". -/
theorem fetch_successFalse_like_noRecord_witness :
    fetchAttemptBody respSuccessFalse = CallResult.success none ∧
    getARecord (fun _ => fetchAttemptBody respSuccessFalse) = none := by
  have h := fetch_successFalse_like_noRecord respSuccessFalse rfl rfl
  exact ⟨h.1, (h.2.2 (fun _ => fetchAttemptBody respSuccessFalse) rfl).2.2⟩

/-- Unfolding of the domain loop when the awaited fetch rejects. -/
theorem cycleLoop_cons_err (env : CycleEnv) (ip : String) (k : Nat) (d : DomainTarget)
    (rest : List DomainTarget) (e : String) (hf : env.fetch k = Except.error e) :
    cycleLoop env ip k (d :: rest) = (Except.error e, []) := by
  rw [cycleLoop, hf]

/-- Unfolding of the domain loop when the fetch yields no record (`continue`). -/
theorem cycleLoop_cons_none (env : CycleEnv) (ip : String) (k : Nat) (d : DomainTarget)
    (rest : List DomainTarget) (hf : env.fetch k = Except.ok none) :
    cycleLoop env ip k (d :: rest) = cycleLoop env ip (k + 1) rest := by
  rw [cycleLoop, hf]

/-- Unfolding of the domain loop when the record already matches the IP. -/
theorem cycleLoop_cons_match (env : CycleEnv) (ip : String) (k : Nat) (d : DomainTarget)
    (rest : List DomainTarget) (rec : Record) (hf : env.fetch k = Except.ok (some rec))
    (hip : rec.ip = ip) :
    cycleLoop env ip k (d :: rest)
      = ((cycleLoop env ip (k + 1) rest).1,
         Action.skippedMatch k ip :: (cycleLoop env ip (k + 1) rest).2) := by
  rw [cycleLoop, hf]
  simp [hip]

/-- Unfolding of the domain loop when the record is stale and an update is issued. -/
theorem cycleLoop_cons_stale (env : CycleEnv) (ip : String) (k : Nat) (d : DomainTarget)
    (rest : List DomainTarget) (rec : Record) (hf : env.fetch k = Except.ok (some rec))
    (hip : rec.ip ≠ ip) :
    cycleLoop env ip k (d :: rest)
      = ((cycleLoop env ip (k + 1) rest).1,
         updateARecordModel env k ip rec.ip ++ (cycleLoop env ip (k + 1) rest).2) := by
  rw [cycleLoop, hf]
  simp [hip]

/-- A match-skip log line is not an update call. -/
theorem issuesUpdateFor_cons_skip (i k : Nat) (ipv : String) (l : List Action) :
    issuesUpdateFor i (Action.skippedMatch k ipv :: l) = issuesUpdateFor i l := by
  simp [issuesUpdateFor]

/-- The trace block of one `updateARecord` call contains exactly one issued
update, for its own domain index. -/
theorem issuesUpdateFor_updModel (env : CycleEnv) (i k : Nat) (newIp oldIp : String)
    (l : List Action) :
    issuesUpdateFor i (updateARecordModel env k newIp oldIp ++ l)
      = ((k == i) || issuesUpdateFor i l) := by
  cases hu : env.update k <;> simp [issuesUpdateFor, updateARecordModel, hu]

/-- A match-skip log line for index `k` registers for `skipsMatchFor k`. -/
theorem skipsMatchFor_cons_skip (i k : Nat) (ipv : String) (l : List Action) :
    skipsMatchFor i (Action.skippedMatch k ipv :: l) = ((k == i) || skipsMatchFor i l) := by
  simp [skipsMatchFor]

/-- The trace block of one `updateARecord` call contains no match-skip line. -/
theorem skipsMatchFor_updModel (env : CycleEnv) (i k : Nat) (newIp oldIp : String)
    (l : List Action) :
    skipsMatchFor i (updateARecordModel env k newIp oldIp ++ l) = skipsMatchFor i l := by
  cases hu : env.update k <;> simp [skipsMatchFor, updateARecordModel, hu]

/-- Helper for C3: an update call for domain index `i` appears in the trace
of the domain loop only if the fetched record for `i` existed and differed
from the resolved IP. -/
theorem issuesUpdateFor_cycleLoop (env : CycleEnv) (ip : String) :
    ∀ (ds : List DomainTarget) (k i : Nat),
      issuesUpdateFor i (cycleLoop env ip k ds).2 = true →
      ∃ rec, env.fetch i = Except.ok (some rec) ∧ rec.ip ≠ ip := by
  intro ds
  induction ds with
  | nil =>
      intro k i h
      simp [cycleLoop, issuesUpdateFor] at h
  | cons d rest ih =>
      intro k i h
      cases hf : env.fetch k with
      | error e =>
          rw [cycleLoop_cons_err env ip k d rest e hf] at h
          simp [issuesUpdateFor] at h
      | ok o =>
          cases o with
          | none =>
              rw [cycleLoop_cons_none env ip k d rest hf] at h
              exact ih (k + 1) i h
          | some rec =>
              by_cases hip : rec.ip = ip
              · rw [cycleLoop_cons_match env ip k d rest rec hf hip] at h
                dsimp only at h
                rw [issuesUpdateFor_cons_skip] at h
                exact ih (k + 1) i h
              · rw [cycleLoop_cons_stale env ip k d rest rec hf hip] at h
                dsimp only at h
                rw [issuesUpdateFor_updModel] at h
                cases hor : (k == i) with
                | true =>
                    have hk : k = i := by simpa using hor
                    exact ⟨rec, hk ▸ hf, hip⟩
                | false =>
                    rw [hor, Bool.false_or] at h
                    exact ih (k + 1) i h

/-- C3: in any cycle whose resolved public IP equals the fetched record value
for domain `i` (exact string equality), no update call is issued for that
domain — re-running with an unchanged IP is idempotent on the provider
records. -/
theorem cycle_no_update_when_match (env : CycleEnv) (domains : List DomainTarget)
    (i : Nat) (ip : String) (rec : Record)
    (hip : env.publicIp = some ip)
    (hf : env.fetch i = Except.ok (some rec))
    (he : rec.ip = ip) :
    issuesUpdateFor i (checkAndUpdate false env domains).2.2 = false := by
  have hcu : (checkAndUpdate false env domains).2.2 = (cycleLoop env ip 0 domains).2 := by
    unfold checkAndUpdate
    rw [hip]
    simp
  rw [hcu]
  by_contra hcon
  rw [Bool.not_eq_false] at hcon
  obtain ⟨rec2, hf2, hne⟩ := issuesUpdateFor_cycleLoop env ip domains 0 i hcon
  rw [hf] at hf2
  injection hf2 with hf3
  injection hf3 with hf4
  exact hne (hf4 ▸ he)

/-- C3 witness: with a single domain whose record already equals the resolved
IP, the cycle trace contains no update call for it. -/
theorem cycle_no_update_when_match_witness :
    issuesUpdateFor 0 (checkAndUpdate false envMatch domainsOne).2.2 = false :=
  cycle_no_update_when_match envMatch domainsOne 0 "1.2.3.4"
    { ip := "1.2.3.4", recordId := "rid" } rfl rfl rfl

/-- Helper for C6: if every domain before relative position `j` fetched
without a rejection (records may be absent), then the loop reaches the `j`-th
domain and processes its record: a matching record is logged as a skip, a
stale one gets an update call. -/
theorem cycleLoop_reaches (env : CycleEnv) (ip : String) :
    ∀ (ds : List DomainTarget) (k j : Nat), j < ds.length →
      (∀ m, m < j → ∃ o, env.fetch (k + m) = Except.ok o) →
      ∀ rec, env.fetch (k + j) = Except.ok (some rec) →
      (rec.ip = ip → skipsMatchFor (k + j) (cycleLoop env ip k ds).2 = true) ∧
      (rec.ip ≠ ip → issuesUpdateFor (k + j) (cycleLoop env ip k ds).2 = true) := by
  intro ds
  induction ds with
  | nil =>
      intro k j hj
      simp at hj
  | cons d rest ih =>
      intro k j hj hok rec hrec
      cases j with
      | zero =>
          rw [Nat.add_zero] at hrec ⊢
          constructor
          · intro hip
            rw [cycleLoop_cons_match env ip k d rest rec hrec hip]
            dsimp only
            rw [skipsMatchFor_cons_skip]
            simp
          · intro hip
            rw [cycleLoop_cons_stale env ip k d rest rec hrec hip]
            dsimp only
            rw [issuesUpdateFor_updModel]
            simp
      | succ j2 =>
          obtain ⟨o, ho⟩ := hok 0 (Nat.succ_pos j2)
          rw [Nat.add_zero] at ho
          have hok2 : ∀ m, m < j2 → ∃ o2, env.fetch (k + 1 + m) = Except.ok o2 := by
            intro m hm
            have := hok (m + 1) (by omega)
            have harith : k + (m + 1) = k + 1 + m := by omega
            rw [harith] at this
            exact this
          have harith2 : k + (j2 + 1) = k + 1 + j2 := by omega
          rw [harith2] at hrec ⊢
          have IH := ih (k + 1) j2 (by simpa using hj) hok2 rec hrec
          cases o with
          | none =>
              rw [cycleLoop_cons_none env ip k d rest ho]
              exact IH
          | some r2 =>
              by_cases hip2 : r2.ip = ip
              · rw [cycleLoop_cons_match env ip k d rest r2 ho hip2]
                dsimp only
                rw [skipsMatchFor_cons_skip, issuesUpdateFor_cons_skip]
                constructor
                · intro hip
                  rw [IH.1 hip, Bool.or_true]
                · intro hip
                  exact IH.2 hip
              · rw [cycleLoop_cons_stale env ip k d rest r2 ho hip2]
                dsimp only
                rw [skipsMatchFor_updModel, issuesUpdateFor_updModel]
                constructor
                · intro hip
                  exact IH.1 hip
                · intro hip
                  rw [IH.2 hip, Bool.or_true]

/-- C6: a fetch that exhausts its retries for one domain is confined to that
domain: `getARecord` turns the exhausted-retry error into `null` rather than
raising it, the cycle continues, and every later domain whose fetch settles
is still processed in the same cycle — logged as a match if its record equals
the IP, or given an update call if stale. -/
theorem cycle_fetch_failure_confined (env : CycleEnv) (domains : List DomainTarget)
    (ip : String) (i j : Nat) (rec : Record)
    (hip : env.publicIp = some ip)
    (hij : i < j) (hj : j < domains.length)
    (hfi : env.fetch i = Except.ok none)
    (hok : ∀ k, k < j → ∃ o, env.fetch k = Except.ok o)
    (hfj : env.fetch j = Except.ok (some rec)) :
    (∀ attemptFn : Nat → CallResult (Option Record),
        (∀ a, 1 ≤ a → a ≤ 3 → ∃ e, attemptFn a = CallResult.failure e) →
        getARecord attemptFn = none) ∧
    (rec.ip = ip → skipsMatchFor j (checkAndUpdate false env domains).2.2 = true) ∧
    (rec.ip ≠ ip → issuesUpdateFor j (checkAndUpdate false env domains).2.2 = true) := by
  have hcu : (checkAndUpdate false env domains).2.2 = (cycleLoop env ip 0 domains).2 := by
    unfold checkAndUpdate
    rw [hip]
    simp
  have hreach := cycleLoop_reaches env ip domains 0 j hj
    (by intro m hm; rw [Nat.zero_add]; exact hok m hm) rec
    (by rw [Nat.zero_add]; exact hfj)
  rw [Nat.zero_add] at hreach
  refine ⟨?_, ?_, ?_⟩
  · intro attemptFn hall
    obtain ⟨e1, h1⟩ := hall 1 (by omega) (by omega)
    obtain ⟨e2, h2⟩ := hall 2 (by omega) (by omega)
    obtain ⟨e3, h3⟩ := hall 3 (by omega) (by omega)
    rw [getARecord, retryCloudflareAPI, retryFrom, h1, retryFrom, h2, retryFrom, h3]
    norm_num
  · intro h
    rw [hcu]
    exact hreach.1 h
  · intro h
    rw [hcu]
    exact hreach.2 h

/-- C6 witness: with two domains, domain 0 yielding no record and domain 1
stale, the cycle still issues the update for domain 1; and an always-failing
attempt function makes `getARecord` return `null`. -/
theorem cycle_fetch_failure_confined_witness :
    issuesUpdateFor 1 (checkAndUpdate false envFirstFails domainsTwo).2.2 = true ∧
    getARecord (fun _ => CallResult.failure "exhausted") = none := by
  have h := cycle_fetch_failure_confined envFirstFails domainsTwo "1.2.3.4" 0 1
    { ip := "9.9.9.9", recordId := "r2" } rfl (by omega) (by decide) rfl
    (by intro k hk; interval_cases k; exact ⟨none, rfl⟩) rfl
  exact ⟨h.2.2 (by decide), h.1 (fun _ => CallResult.failure "exhausted")
    (fun a _ _ => ⟨"exhausted", rfl⟩)⟩

/-- Every target that survives `loadConfig` has a truthy name and zone id
(they are exactly what the filter kept). -/
theorem loadDomains_good (cfg : RawConfig) :
    ∀ d ∈ loadDomains cfg, strTruthy d.name = true ∧ strTruthy d.zoneId = true := by
  intro d hd
  unfold loadDomains at hd
  cases hcd : cfg.domains with
  | none => rw [hcd] at hd; simp at hd
  | some ds =>
      rw [hcd] at hd
      simp only [List.mem_map, List.mem_filter, Bool.and_eq_true] at hd
      obtain ⟨d0, ⟨-, hn, hz⟩, rfl⟩ := hd
      exact ⟨hn, hz⟩

/-- The per-domain error list of `validateConfig` is empty iff every domain
(already known to have truthy name and zone) has a usable credential. -/
theorem domainErrors_eq_nil (ds : List DomainTarget) :
    ∀ i, (∀ d ∈ ds, strTruthy d.name = true ∧ strTruthy d.zoneId = true) →
      (domainErrors i ds = [] ↔ ∀ d ∈ ds, tokenBad d.apiToken = false) := by
  induction ds with
  | nil =>
      intro i _
      simp [domainErrors]
  | cons d rest ih =>
      intro i hgood
      have hd := hgood d (List.mem_cons_self d rest)
      have hrest : ∀ d2 ∈ rest, strTruthy d2.name = true ∧ strTruthy d2.zoneId = true :=
        fun d2 h2 => hgood d2 (List.mem_cons_of_mem d h2)
      rw [domainErrors, hd.1, hd.2]
      cases htok : tokenBad d.apiToken
      · simp [ih (i + 1) hrest, htok]
      · simp [htok]

/-- C4 counterexample: a configuration containing a fully valid entry plus an
entry with no `name` is accepted — `loadConfig` silently drops the nameless
entry and `validateConfig` does not exit — refuting the claim that such a
configuration is rejected. -/
theorem validate_accepts_dropped_nameless_entry :
    ((cfgDropsNamelessEntry.domains.getD []).any fun d => !strTruthy d.name) = true ∧
    validateConfigFatal cfgDropsNamelessEntry = false := by
  constructor
  · decide
  · decide

/-- C4 (amended): validation is fatal (the process exits non-zero) iff, after
`loadConfig` has dropped every entry lacking a truthy name or zone id, either
no domain remains or some remaining domain lacks a resolvable non-blank
credential. Entries without a name or zone id are dropped at load time, not
rejected. -/
theorem validate_fatal_iff (cfg : RawConfig) :
    validateConfigFatal cfg = true ↔
      (loadDomains cfg = [] ∨ ∃ d ∈ loadDomains cfg, tokenBad d.apiToken = true) := by
  unfold validateConfigFatal validateErrors
  cases hld : loadDomains cfg with
  | nil => simp
  | cons d rest =>
      have hgood := loadDomains_good cfg
      rw [hld] at hgood
      have hiff := domainErrors_eq_nil (d :: rest) 0 hgood
      simp only [List.isEmpty_cons, Bool.false_eq_true, if_false, List.nil_append,
        List.cons_ne_nil, false_or]
      constructor
      · intro h
        by_contra hno
        push_neg at hno
        have hall : ∀ d2 ∈ d :: rest, tokenBad d2.apiToken = false := by
          intro d2 hm
          cases htok : tokenBad d2.apiToken
          · rfl
          · exact absurd htok (hno d2 hm)
        rw [hiff.mpr hall] at h
        simp at h
      · rintro ⟨d2, hm, htok⟩
        cases hde : domainErrors 0 (d :: rest) with
        | nil => rw [(hiff.mp hde) d2 hm] at htok; exact absurd htok (by simp)
        | cons e es => simp

/-- C8 counterexample: an entry supplying `ttl: 0` is loaded with ttl 0 —
the loaded ttl is not a positive integer, refuting the positivity part of the
claim. -/
theorem loaded_ttl_zero_not_positive :
    (loadDomains cfgTtlZeroEntry).map (fun d => d.ttl) = [0] ∧
    ¬ ∀ d ∈ loadDomains cfgTtlZeroEntry, 0 < d.ttl := by
  constructor
  · decide
  · decide

/-- C8 (amended): for every loaded target, the ttl equals the entry's own
`ttl` whenever the entry defines one (any integer, including 0, is kept
as-is) and otherwise the inherited default (`defaults.ttl || 60`); no
positivity is guaranteed. -/
theorem loaded_ttl_eq_own_or_default (cfg : RawConfig) :
    (loadDomains cfg).map (fun d => d.ttl)
      = ((cfg.domains.getD []).filter fun d => strTruthy d.name && strTruthy d.zoneId).map
          (fun d => d.ttl.getD (configDefaultTtl cfg)) := by
  unfold loadDomains
  cases cfg.domains with
  | none => rfl
  | some ds =>
      rw [List.map_map]
      rfl

/-- C7 counterexample: with notification credentials absent, each call of the
notifier returns not-sent but logs the missing-credentials warning itself —
two calls produce two warnings, refuting "logged once (not once per call)". -/
theorem notifier_warns_every_call :
    (sendTelegramMessage none none (fun _ => TgAttempt.ok) (fun _ => 0)).1 = false ∧
    ((sendTelegramMessage none none (fun _ => TgAttempt.ok) (fun _ => 0)).2 ++
        (sendTelegramMessage none none (fun _ => TgAttempt.ok) (fun _ => 0)).2).count
      TgEvent.warnMissingCreds = 2 := by
  constructor
  · decide
  · decide

/-- C7 (amended): whenever the bot token or chat id is absent (or empty),
every call of the notifier returns not-sent without any delivery attempt, and
each such call logs exactly one missing-credentials warning (the once-only
startup warning is emitted by `validateConfig`, not by the notifier). -/
theorem notifier_missing_creds_noop (botToken chatId : Option String)
    (attempt : Nat → TgAttempt) (jitter : Nat → Nat)
    (h : strTruthy botToken = false ∨ strTruthy chatId = false) :
    sendTelegramMessage botToken chatId attempt jitter
      = (false, [TgEvent.warnMissingCreds]) := by
  unfold sendTelegramMessage
  rcases h with h | h <;> simp [h]

/-- C7 witness: a present chat id but absent bot token still short-circuits. -/
theorem notifier_missing_creds_noop_witness :
    sendTelegramMessage none (some "12345") (fun _ => TgAttempt.ok) (fun _ => 0)
      = (false, [TgEvent.warnMissingCreds]) :=
  notifier_missing_creds_noop none (some "12345") (fun _ => TgAttempt.ok) (fun _ => 0)
    (Or.inl rfl)

/-- C5: on a termination signal, a second signal while shutting down is a
no-op; with no cycle running the handler cancels any pending timer and exits
with status 0 immediately; with a cycle running it cancels the pending timer
and starts the completion poll, which exits 0 at the first 100 ms poll tick
after the cycle completes when that is within the 30 s ceiling, and
force-exits with status 1 at 30000 ms when the cycle has not completed within
30 s. -/
theorem shutdown_protocol (s : ShutdownState) (t : Nat) :
    (s.isShuttingDown = true → gracefulShutdown s = (s, [])) ∧
    (s.isShuttingDown = false → s.isRunning = false →
      gracefulShutdown s
        = ({ isShuttingDown := true, timerPending := false, isRunning := false },
           (if s.timerPending then [ShutdownEffect.cancelTimer] else [])
             ++ [ShutdownEffect.exitNow 0])) ∧
    (s.isShuttingDown = false → s.isRunning = true →
      gracefulShutdown s
        = ({ isShuttingDown := true, timerPending := false, isRunning := true },
           (if s.timerPending then [ShutdownEffect.cancelTimer] else [])
             ++ [ShutdownEffect.startPoll])) ∧
    (t ≤ 29900 → (shutdownPollExit t).1 = 0) ∧
    (30000 < t → shutdownPollExit t = (1, 30000)) := by
  obtain ⟨sd, tp, r⟩ := s
  refine ⟨?_, ?_, ?_, ?_, ?_⟩
  · intro h
    simp only at h
    subst h
    simp [gracefulShutdown]
  · intro h1 h2
    simp only at h1 h2
    subst h1
    subst h2
    cases tp <;> simp [gracefulShutdown]
  · intro h1 h2
    simp only at h1 h2
    subst h1
    subst h2
    cases tp <;> simp [gracefulShutdown]
  · intro h
    unfold shutdownPollExit
    have hlt : 100 * ((t + 99) / 100) < 30000 := by omega
    simp [hlt]
  · intro h
    unfold shutdownPollExit
    have hge : ¬ 100 * ((t + 99) / 100) < 30000 := by omega
    simp [hge]

/-- C5 witness: a second signal is ignored, completion at 250 ms exits 0, and
no completion within 30 s force-exits 1 at 30000 ms. -/
theorem shutdown_protocol_witness :
    gracefulShutdown { isShuttingDown := true, timerPending := false, isRunning := false }
      = ({ isShuttingDown := true, timerPending := false, isRunning := false }, []) ∧
    (shutdownPollExit 250).1 = 0 ∧
    shutdownPollExit 31000 = (1, 30000) :=
  ⟨(shutdown_protocol ⟨true, false, false⟩ 0).1 rfl,
   (shutdown_protocol ⟨true, false, false⟩ 250).2.2.2.1 (by omega),
   (shutdown_protocol ⟨true, false, false⟩ 31000).2.2.2.2 (by omega)⟩

end CloudflareDdns
